import Mathlib

/-!
Verification of the V8 main allocator fast path
(src/heap/main-allocator.h and src/heap/main-allocator-inl.h),
shallowly embedded as state-passing Lean functions over `Nat` addresses.
Atomic accesses and lock operations are additionally recorded in an
instrumentation trace so that claims about memory orderings and call
sequencing can be stated.
-/

namespace V8Heap

/-- Memory orders of C++ `std::atomic` operations, as annotated in the source. -/
inductive MemoryOrder where
  | relaxed
  | acquire
  | release
  | seq_cst
deriving Repr, DecidableEq

/-- The two atomic fields of `LinearAreaOriginalData` (main-allocator.h:43-44). -/
inductive AtomicField where
  | original_top
  | original_limit
deriving Repr, DecidableEq

/-- Whether an atomic access is a load or a store. -/
inductive AtomicOp where
  | load
  | store
deriving Repr, DecidableEq

/-- Synchronization events recorded by the embedding: lock acquisition and
release of the `linear_area_lock_` shared mutex, and each atomic access
together with the memory order the source annotates it with. -/
inductive SyncEvent where
  | lockExclusive
  | unlockExclusive
  | access (f : AtomicField) (op : AtomicOp) (order : MemoryOrder)
deriving Repr, DecidableEq

/-- The published bounds `LinearAreaOriginalData` (main-allocator.h:21-48):
`original_top_` and `original_limit_` are `std::atomic<Address>`; the
embedding keeps their values and a trace of the atomic/lock operations
performed on them. -/
structure LinearAreaOriginalData where
  original_top : Nat
  original_limit : Nat
  sync : List SyncEvent
deriving Repr, DecidableEq

/-- Acquire-load of `original_top_` (main-allocator.h:23-25). -/
def LinearAreaOriginalData.get_original_top_acquire (d : LinearAreaOriginalData) :
    Nat × LinearAreaOriginalData :=
  (d.original_top,
   { d with sync := d.sync ++ [SyncEvent.access .original_top .load .acquire] })

/-- Relaxed load of `original_limit_` (main-allocator.h:26-28). -/
def LinearAreaOriginalData.get_original_limit_relaxed (d : LinearAreaOriginalData) :
    Nat × LinearAreaOriginalData :=
  (d.original_limit,
   { d with sync := d.sync ++ [SyncEvent.access .original_limit .load .relaxed] })

/-- Release-store of `original_top_` (main-allocator.h:30-32). -/
def LinearAreaOriginalData.set_original_top_release (d : LinearAreaOriginalData)
    (top : Nat) : LinearAreaOriginalData :=
  { d with original_top := top,
           sync := d.sync ++ [SyncEvent.access .original_top .store .release] }

/-- Relaxed store of `original_limit_` (main-allocator.h:33-35). -/
def LinearAreaOriginalData.set_original_limit_relaxed (d : LinearAreaOriginalData)
    (limit : Nat) : LinearAreaOriginalData :=
  { d with original_limit := limit,
           sync := d.sync ++ [SyncEvent.access .original_limit .store .relaxed] }

/-- Exclusive acquisition of `linear_area_lock_`, the entry of a
`SharedMutexGuard<kExclusive>` scope (main-allocator.h:85). -/
def LinearAreaOriginalData.lockExclusiveGuard (d : LinearAreaOriginalData) :
    LinearAreaOriginalData :=
  { d with sync := d.sync ++ [SyncEvent.lockExclusive] }

/-- Release of `linear_area_lock_` when the guard goes out of scope. -/
def LinearAreaOriginalData.unlockExclusiveGuard (d : LinearAreaOriginalData) :
    LinearAreaOriginalData :=
  { d with sync := d.sync ++ [SyncEvent.unlockExclusive] }

/-- Modelled from the spec: the `LinearAllocationArea` / BumpRegion triple
`start ≤ top ≤ limit` (spec section 3); its class body lives in
src/heap/linear-allocation-area.h, which is not part of this snapshot. -/
structure LinearAllocationArea where
  start : Nat
  top : Nat
  limit : Nat
deriving Repr, DecidableEq

/-- Modelled from the spec: `CanIncrementTop(n)` is true iff `top + n ≤ limit`
(spec section 4.1); the body is in linear-allocation-area.h, not in this
snapshot. -/
def LinearAllocationArea.CanIncrementTop (la : LinearAllocationArea)
    (bytes : Nat) : Bool :=
  la.top + bytes ≤ la.limit

/-- Modelled from the spec: `IncrementTop(n)` advances `top` by `n` and
returns the pre-increment value as the new object address (spec section 4.1);
the body is in linear-allocation-area.h, not in this snapshot. -/
def LinearAllocationArea.IncrementTop (la : LinearAllocationArea)
    (bytes : Nat) : Nat × LinearAllocationArea :=
  (la.top, { la with top := la.top + bytes })

/-- The tagged allocation outcome `AllocationResult` (spec section 3); its
class body lives in src/heap/allocation-result.h, which is not part of this
snapshot: Success carries the object address, Failure signals a fast-path
miss. -/
inductive AllocationResult where
  | Success (address : Nat)
  | Failure
deriving Repr, DecidableEq

/-- Test for the Failure variant, as `AllocationResult::IsFailure()`. -/
def AllocationResult.IsFailure : AllocationResult → Bool
  | .Failure => true
  | .Success _ => false

/-- Allocation alignment request: `kTaggedAligned` means no special
alignment; a special request carries the alignment in bytes (the enum lives
in src/common/globals.h, not in this snapshot; the spec speaks of "any
requested alignment a"). -/
inductive AllocationAlignment where
  | kTaggedAligned
  | specialAligned (a : Nat)
deriving Repr, DecidableEq

/-- Allocation origin tag, passed through unchanged by the fast path (the
enum lives outside this snapshot; values per the V8 declaration). -/
inductive AllocationOrigin where
  | kGeneratedCode
  | kRuntime
  | kGC
deriving Repr, DecidableEq

/-- Modelled from the spec: the platform allocation granularity used by the
`ALIGN_TO_ALLOCATION_ALIGNMENT` macro (src/common/globals.h, not in this
snapshot). -/
def kAllocationGranularity : Nat := 8

/-- Modelled from the spec: `ALIGN_TO_ALLOCATION_ALIGNMENT` rounds a size up
to the platform allocation granularity (spec section 4.4; the macro lives in
src/common/globals.h, not in this snapshot). -/
def ALIGN_TO_ALLOCATION_ALIGNMENT (n : Nat) : Nat :=
  ((n + kAllocationGranularity - 1) / kAllocationGranularity) *
    kAllocationGranularity

/-- Modelled from the spec: `Heap::GetFillToAlign(address, alignment)`
computes the bytes of filler needed to align `address` up to the requested
alignment (spec section 4.4; the body lives in src/heap/heap-inl.h, not in
this snapshot). No special alignment needs no filler. -/
def GetFillToAlign (address : Nat) (alignment : AllocationAlignment) : Nat :=
  match alignment with
  | .kTaggedAligned => 0
  | .specialAligned a => (a - address % a) % a

/-- State of a `MainAllocator`: the live linear allocation area, the
published original bounds, and the list of filler objects materialized so
far, each as an (address, size) pair. -/
structure MainAllocatorState where
  allocation_info : LinearAllocationArea
  linear_area_original_data : LinearAreaOriginalData
  fillers : List (Nat × Nat)
deriving Repr, DecidableEq

/-- Modelled from the spec: `Heap::PrecedeWithFiller(object, filler_size)`
materializes a filler object covering `filler_size` bytes at the object
address and returns the object relocated immediately after the filler (spec
section 6; the body lives outside this snapshot). -/
def PrecedeWithFiller (s : MainAllocatorState) (obj : Nat) (filler_size : Nat) :
    MainAllocatorState × Nat :=
  ({ s with fillers := s.fillers ++ [(obj, filler_size)] }, obj + filler_size)

/-- MainAllocator::AllocateFastUnaligned (main-allocator-inl.h:33-45):
rounds the size, checks `CanIncrementTop`, and on success bumps `top`
returning the pre-increment value as the object address. -/
def AllocateFastUnaligned (s : MainAllocatorState) (size_in_bytes : Nat)
    (_origin : AllocationOrigin) : MainAllocatorState × AllocationResult :=
  let size_in_bytes := ALIGN_TO_ALLOCATION_ALIGNMENT size_in_bytes
  if !(s.allocation_info.CanIncrementTop size_in_bytes) then
    (s, .Failure)
  else
    let p := s.allocation_info.IncrementTop size_in_bytes
    ({ s with allocation_info := p.2 }, .Success p.1)

/-- MainAllocator::AllocateFastAligned (main-allocator-inl.h:47-69):
computes the filler needed to align the current `top`, checks room for
`size + filler`, and on success bumps `top` by the combined size, writes the
out-parameter if requested, and precedes the object with a filler when
`filler > 0`. The out-parameter is an `Option Nat`: `none` models a null
pointer, `some v` a pointer currently holding `v`. -/
def AllocateFastAligned (s : MainAllocatorState) (size_in_bytes : Nat)
    (result_aligned_size_in_bytes : Option Nat)
    (alignment : AllocationAlignment) (_origin : AllocationOrigin) :
    MainAllocatorState × AllocationResult × Option Nat :=
  let top := s.allocation_info.top
  let filler_size := GetFillToAlign top alignment
  let aligned_size_in_bytes := size_in_bytes + filler_size
  if !(s.allocation_info.CanIncrementTop aligned_size_in_bytes) then
    (s, .Failure, result_aligned_size_in_bytes)
  else
    let p := s.allocation_info.IncrementTop aligned_size_in_bytes
    let s1 : MainAllocatorState := { s with allocation_info := p.2 }
    let out : Option Nat :=
      match result_aligned_size_in_bytes with
      | some _ => some aligned_size_in_bytes
      | none => none
    if filler_size > 0 then
      let q := PrecedeWithFiller s1 p.1 filler_size
      (q.1, .Success q.2, out)
    else
      (s1, .Success p.1, out)

/-- Call events recorded by the allocator embedding: each fast-path attempt
with its result, entry into the slow path, the refill/collection delegation,
and each `InvokeAllocationObservers` call with its four arguments. -/
inductive AllocEvent where
  | fastUnaligned (size : Nat) (result : AllocationResult)
  | fastAligned (size : Nat) (result : AllocationResult)
  | slowCalled (size : Nat)
  | refillAttempt (succeeded : Bool)
  | observersInvoked (soon_object size aligned_size allocation_size : Nat)
deriving Repr, DecidableEq

/-- True iff the condition of main-allocator-inl.h:23 selects the aligned
fast path: alignment support compiled in and a non-tagged alignment. -/
def usesAlignedPath (useAllocAlign : Bool) (alignment : AllocationAlignment) :
    Bool :=
  useAllocAlign && alignment != AllocationAlignment.kTaggedAligned

/-- One fast-path attempt as dispatched by `AllocateRaw`
(main-allocator-inl.h:23-27), with its call event. -/
def fastPathAttempt (useAllocAlign : Bool) (s : MainAllocatorState)
    (size_in_bytes : Nat) (alignment : AllocationAlignment)
    (origin : AllocationOrigin) :
    MainAllocatorState × AllocationResult × List AllocEvent :=
  if usesAlignedPath useAllocAlign alignment then
    let r := AllocateFastAligned s size_in_bytes none alignment origin
    (r.1, r.2.1, [AllocEvent.fastAligned size_in_bytes r.2.1])
  else
    let r := AllocateFastUnaligned s size_in_bytes origin
    (r.1, r.2, [AllocEvent.fastUnaligned size_in_bytes r.2])

/-- Modelled from the spec: `MainAllocator::AllocateRawSlow` (declared at
main-allocator.h:152-155; its body lives in main-allocator.cc, not in this
snapshot). Per spec section 4.4 it delegates to the external space/heap
collaborator (`refill`) to refill the region or trigger collection, retries
the fast path exactly once against the refreshed region, invokes the
allocation observers once on success, and surfaces a terminal Failure
otherwise, never looping. -/
def AllocateRawSlow (refill : MainAllocatorState → Nat → Option MainAllocatorState)
    (useAllocAlign : Bool) (s : MainAllocatorState) (size_in_bytes : Nat)
    (alignment : AllocationAlignment) (origin : AllocationOrigin) :
    MainAllocatorState × AllocationResult × List AllocEvent :=
  match refill s size_in_bytes with
  | none =>
      (s, .Failure, [AllocEvent.slowCalled size_in_bytes,
                     AllocEvent.refillAttempt false])
  | some s1 =>
      let r := fastPathAttempt useAllocAlign s1 size_in_bytes alignment origin
      match r.2.1 with
      | .Success addr =>
          (r.1, .Success addr,
           [AllocEvent.slowCalled size_in_bytes, AllocEvent.refillAttempt true]
             ++ r.2.2
             ++ [AllocEvent.observersInvoked addr size_in_bytes size_in_bytes
                  size_in_bytes])
      | .Failure =>
          (r.1, .Failure,
           [AllocEvent.slowCalled size_in_bytes, AllocEvent.refillAttempt true]
             ++ r.2.2)

/-- MainAllocator::AllocateRaw (main-allocator-inl.h:15-31): rounds the size
to the allocation granularity, dispatches to the aligned fast path when a
special alignment is requested and alignment support is compiled in
(`useAllocAlign` models `USE_ALLOCATION_ALIGNMENT_BOOL`), otherwise to the
unaligned fast path; on fast-path Failure falls through to
`AllocateRawSlow`, otherwise returns the fast result. -/
def AllocateRaw (useAllocAlign : Bool)
    (refill : MainAllocatorState → Nat → Option MainAllocatorState)
    (s : MainAllocatorState) (size_in_bytes : Nat)
    (alignment : AllocationAlignment) (origin : AllocationOrigin) :
    MainAllocatorState × AllocationResult × List AllocEvent :=
  let size_in_bytes := ALIGN_TO_ALLOCATION_ALIGNMENT size_in_bytes
  let r := fastPathAttempt useAllocAlign s size_in_bytes alignment origin
  if r.2.1.IsFailure then
    let r2 := AllocateRawSlow refill useAllocAlign r.1 size_in_bytes alignment
      origin
    (r2.1, r2.2.1, r.2.2 ++ r2.2.2)
  else
    (r.1, r.2.1, r.2.2)

/-- MainAllocator::MoveOriginalTopForward (main-allocator.h:84-89): takes the
linear-area lock exclusively, performs the two DCHECK reads of the published
bounds, release-stores the current `top` as the new `original_top`, and
releases the lock. -/
def MoveOriginalTopForward (s : MainAllocatorState) : MainAllocatorState :=
  let d := s.linear_area_original_data.lockExclusiveGuard
  let r1 := d.get_original_top_acquire
  let r2 := r1.2.get_original_limit_relaxed
  let d3 := r2.2.set_original_top_release s.allocation_info.top
  let d4 := d3.unlockExclusiveGuard
  { s with linear_area_original_data := d4 }

/-- The DCHECK conditions of MoveOriginalTopForward (main-allocator.h:86-87):
the current `top` lies within the published `[original_top, original_limit]`. -/
def MoveOriginalTopForwardAssert (s : MainAllocatorState) : Prop :=
  s.linear_area_original_data.original_top ≤ s.allocation_info.top ∧
    s.allocation_info.top ≤ s.linear_area_original_data.original_limit

/-- Recognizes a fast-path attempt event (unaligned or aligned). -/
def isFastAttemptEvent : AllocEvent → Bool
  | .fastUnaligned _ _ => true
  | .fastAligned _ _ => true
  | _ => false

/-- Recognizes an `InvokeAllocationObservers` event. -/
def isObserverEvent : AllocEvent → Bool
  | .observersInvoked _ _ _ _ => true
  | _ => false

/-- Recognizes a slow-path entry event. -/
def isSlowEvent : AllocEvent → Bool
  | .slowCalled _ => true
  | _ => false

/-- The memory-ordering contract the source annotates on the published
bounds: loads of `original_top_` are acquire, stores of it are release, and
every access of `original_limit_` is relaxed. -/
def orderingContract : SyncEvent → Bool
  | .access .original_top .load o => o == MemoryOrder.acquire
  | .access .original_top .store o => o == MemoryOrder.release
  | .access .original_limit _ o => o == MemoryOrder.relaxed
  | _ => true

/-- A single allocation request of a sequence: unaligned, or aligned to `a`
bytes. -/
inductive AllocRequest where
  | unalignedReq (size : Nat)
  | alignedReq (size : Nat) (a : Nat)
deriving Repr, DecidableEq

/-- One fast-path allocation attempt of a request sequence. On success the
recorded triple is (address, object size, aligned size), where the aligned
size is object size plus alignment filler exactly as the code computes
`aligned_size_in_bytes`. -/
def allocStep (s : MainAllocatorState) (origin : AllocationOrigin) :
    AllocRequest → MainAllocatorState × Option (Nat × Nat × Nat)
  | .unalignedReq size =>
      let r := AllocateFastUnaligned s size origin
      match r.2 with
      | .Success addr =>
          (r.1, some (addr, ALIGN_TO_ALLOCATION_ALIGNMENT size,
            ALIGN_TO_ALLOCATION_ALIGNMENT size))
      | .Failure => (r.1, none)
  | .alignedReq size a =>
      let r := AllocateFastAligned s size none (.specialAligned a) origin
      match r.2.1 with
      | .Success addr =>
          (r.1, some (addr, size,
            size + GetFillToAlign s.allocation_info.top (.specialAligned a)))
      | .Failure => (r.1, none)

/-- Runs a sequence of fast-path allocation requests from a state, returning
the final state and the recorded triples of the successful allocations in
order. -/
def runAllocs (origin : AllocationOrigin) :
    MainAllocatorState → List AllocRequest →
      MainAllocatorState × List (Nat × Nat × Nat)
  | s, [] => (s, [])
  | s, req :: rest =>
      let r := allocStep s origin req
      let r2 := runAllocs origin r.1 rest
      (r2.1, r.2.toList ++ r2.2)

/-- Non-overlap relation between consecutive successful allocations: the
object range of the first (its address plus its object size, the filler
having been placed before the address) ends at or before the next address,
strictly before it when the first object is non-empty. -/
def MonotoneStep (x y : Nat × Nat × Nat) : Prop :=
  x.1 + x.2.1 ≤ y.1 ∧ (0 < x.2.1 → x.1 < y.1)

/-- Published bounds with no recorded accesses, both fields zero. -/
def demoOriginalData : LinearAreaOriginalData := ⟨0, 0, []⟩

/-- A fresh linear allocation area [0, 1000) with nothing allocated. -/
def demoState : MainAllocatorState := ⟨⟨0, 0, 1000⟩, demoOriginalData, []⟩

/-- A nearly full linear allocation area: [0, 1000) with top at 992. -/
def demoFullState : MainAllocatorState := ⟨⟨0, 992, 1000⟩, demoOriginalData, []⟩

/-- A space collaborator that can never refill the region. -/
def refillFail : MainAllocatorState → Nat → Option MainAllocatorState :=
  fun _ _ => none

/-- A space collaborator that installs a fresh backing page [2000, 4000). -/
def refillFresh : MainAllocatorState → Nat → Option MainAllocatorState :=
  fun s _ => some { s with allocation_info := ⟨2000, 2000, 4000⟩ }

/-- The state `refillFresh` produces from any state. -/
def demoFreshState : MainAllocatorState :=
  { demoFullState with allocation_info := ⟨2000, 2000, 4000⟩ }

/-- Request sequence exhibiting an alignment filler between allocations:
unaligned 8 bytes, then 8 bytes aligned to 16 (filler 8), then unaligned
8 bytes. -/
def overlapRequests : List AllocRequest :=
  [.unalignedReq 8, .alignedReq 8 16, .unalignedReq 8]

/-! Helper lemmas shared by the claim theorems. -/

lemma allocateFastUnaligned_failure_state (s : MainAllocatorState) (n : Nat)
    (og : AllocationOrigin) (h : (AllocateFastUnaligned s n og).2 = .Failure) :
    (AllocateFastUnaligned s n og).1 = s := by
  unfold AllocateFastUnaligned at *
  by_cases hc : s.allocation_info.CanIncrementTop
      (ALIGN_TO_ALLOCATION_ALIGNMENT n) = true
  · simp [hc, LinearAllocationArea.IncrementTop] at h
  · simp [Bool.not_eq_true] at hc
    simp [hc]

lemma allocateFastAligned_failure_state (s : MainAllocatorState) (n : Nat)
    (out : Option Nat) (al : AllocationAlignment) (og : AllocationOrigin)
    (h : (AllocateFastAligned s n out al og).2.1 = .Failure) :
    (AllocateFastAligned s n out al og).1 = s ∧
      (AllocateFastAligned s n out al og).2.2 = out := by
  unfold AllocateFastAligned at *
  by_cases hc : s.allocation_info.CanIncrementTop
      (n + GetFillToAlign s.allocation_info.top al) = true
  · by_cases hf : GetFillToAlign s.allocation_info.top al > 0 <;>
      simp [hc, hf, LinearAllocationArea.IncrementTop, PrecedeWithFiller] at h
  · simp [Bool.not_eq_true] at hc
    simp [hc]

lemma fillToAlign_mod (t a : Nat) (ha : 0 < a) :
    (t + (a - t % a) % a) % a = 0 := by
  rcases Nat.eq_zero_or_pos (t % a) with h | h
  · simp [h, Nat.add_mod, Nat.mod_self]
  · have hlt : t % a < a := Nat.mod_lt _ ha
    have h2 : (a - t % a) % a = a - t % a := Nat.mod_eq_of_lt (by omega)
    rw [h2]
    have h3 : t + (a - t % a) = a * (t / a + 1) := by
      have h4 := Nat.div_add_mod t a
      have h5 : a * (t / a + 1) = a * (t / a) + a := by ring
      omega
    rw [h3]
    simp [Nat.mul_mod_right]

/-- C2: AllocateFastUnaligned returns Failure iff the granularity-rounded
size does not fit (`top + size > limit`); otherwise it returns Success at
the pre-increment top and advances top by exactly the rounded size. -/
theorem allocate_fast_unaligned_spec (s : MainAllocatorState) (n : Nat)
    (og : AllocationOrigin) :
    ((AllocateFastUnaligned s n og).2 = .Failure ↔
      s.allocation_info.limit <
        s.allocation_info.top + ALIGN_TO_ALLOCATION_ALIGNMENT n) ∧
    ((AllocateFastUnaligned s n og).2 ≠ .Failure →
      (AllocateFastUnaligned s n og).2 =
        .Success s.allocation_info.top ∧
      (AllocateFastUnaligned s n og).1.allocation_info.top =
        s.allocation_info.top + ALIGN_TO_ALLOCATION_ALIGNMENT n) := by
  unfold AllocateFastUnaligned
  by_cases hc : s.allocation_info.top + ALIGN_TO_ALLOCATION_ALIGNMENT n ≤
      s.allocation_info.limit
  · simp [LinearAllocationArea.CanIncrementTop, hc,
      LinearAllocationArea.IncrementTop]
  · simp [LinearAllocationArea.CanIncrementTop, hc]
    omega

/-- Witness for C2 at a concrete input: allocating 24 bytes in a fresh
[0, 1000) area succeeds at address 0 and moves top to 24. -/
theorem allocate_fast_unaligned_spec_witness :
    (AllocateFastUnaligned demoState 24 AllocationOrigin.kRuntime).2 =
      AllocationResult.Success 0 ∧
    (AllocateFastUnaligned demoState 24
        AllocationOrigin.kRuntime).1.allocation_info.top = 24 := by
  have h :=
    (allocate_fast_unaligned_spec demoState 24 AllocationOrigin.kRuntime).2
      (by decide)
  exact h

/-- C9: when either fast path returns Failure, the allocator state — the
linear area (start, top, limit), the published bounds, and the filler list —
is completely unchanged, and the aligned path additionally leaves its
out-parameter untouched. -/
theorem fast_path_failure_no_effect (s : MainAllocatorState) (n : Nat)
    (out : Option Nat) (al : AllocationAlignment) (og : AllocationOrigin) :
    ((AllocateFastUnaligned s n og).2 = .Failure →
      (AllocateFastUnaligned s n og).1 = s) ∧
    ((AllocateFastAligned s n out al og).2.1 = .Failure →
      (AllocateFastAligned s n out al og).1 = s ∧
      (AllocateFastAligned s n out al og).2.2 = out) := by
  exact ⟨allocateFastUnaligned_failure_state s n og,
    allocateFastAligned_failure_state s n out al og⟩

/-- Witness for C9 at a concrete input: in a nearly full area (top 992,
limit 1000) a 24-byte request fails on both fast paths and leaves the state
and the out-parameter untouched. -/
theorem fast_path_failure_no_effect_witness :
    (AllocateFastUnaligned demoFullState 24 AllocationOrigin.kRuntime).1 =
      demoFullState ∧
    (AllocateFastAligned demoFullState 24 (some 7)
        (AllocationAlignment.specialAligned 16) AllocationOrigin.kRuntime).1 =
      demoFullState ∧
    (AllocateFastAligned demoFullState 24 (some 7)
        (AllocationAlignment.specialAligned 16)
        AllocationOrigin.kRuntime).2.2 = some 7 := by
  have h := fast_path_failure_no_effect demoFullState 24 (some 7)
    (AllocationAlignment.specialAligned 16) AllocationOrigin.kRuntime
  exact ⟨h.1 (by decide), (h.2 (by decide)).1, (h.2 (by decide)).2⟩

/-- C3: a successful aligned allocation returns an address that is a
multiple of the requested alignment and equals the pre-call top plus the
filler needed to align it; top advances by exactly size + filler; when the
filler is positive a filler object covering exactly those bytes is recorded
at the pre-call top, immediately preceding the returned object, and no
filler is recorded otherwise. -/
theorem allocate_fast_aligned_spec (s : MainAllocatorState) (n a : Nat)
    (out : Option Nat) (og : AllocationOrigin) (addr : Nat) (ha : 0 < a)
    (hs : (AllocateFastAligned s n out (.specialAligned a) og).2.1 =
      .Success addr) :
    addr % a = 0 ∧
    addr = s.allocation_info.top +
      GetFillToAlign s.allocation_info.top (.specialAligned a) ∧
    (AllocateFastAligned s n out (.specialAligned a)
        og).1.allocation_info.top =
      s.allocation_info.top + n +
        GetFillToAlign s.allocation_info.top (.specialAligned a) ∧
    (0 < GetFillToAlign s.allocation_info.top (.specialAligned a) →
      (AllocateFastAligned s n out (.specialAligned a) og).1.fillers =
        s.fillers ++ [(s.allocation_info.top,
          GetFillToAlign s.allocation_info.top (.specialAligned a))]) ∧
    (GetFillToAlign s.allocation_info.top (.specialAligned a) = 0 →
      (AllocateFastAligned s n out (.specialAligned a) og).1.fillers =
        s.fillers) := by
  unfold AllocateFastAligned at *
  by_cases hc : s.allocation_info.CanIncrementTop
      (n + GetFillToAlign s.allocation_info.top (.specialAligned a)) = true
  · by_cases hf : GetFillToAlign s.allocation_info.top (.specialAligned a) > 0
    · simp [hc, hf, LinearAllocationArea.IncrementTop, PrecedeWithFiller]
        at hs ⊢
      refine ⟨?_, hs.symm, by omega, by omega⟩
      rw [← hs]
      simpa [GetFillToAlign] using
        fillToAlign_mod s.allocation_info.top a ha
    · simp [hc, hf, LinearAllocationArea.IncrementTop, PrecedeWithFiller]
        at hs ⊢
      have hf0 : GetFillToAlign s.allocation_info.top (.specialAligned a) = 0 :=
        by omega
      refine ⟨?_, by omega, by omega⟩
      rw [← hs]
      have hm := fillToAlign_mod s.allocation_info.top a ha
      simp [GetFillToAlign] at hf0
      simpa [GetFillToAlign, hf0] using hm
  · simp [hc] at hs

/-- Witness for C3 at a concrete input: from top 8, an 8-byte allocation
aligned to 16 succeeds at address 16 with an 8-byte filler at 8, and top
moves to 24. -/
theorem allocate_fast_aligned_spec_witness :
    (16 : Nat) % 16 = 0 ∧
    (AllocateFastAligned ⟨⟨0, 8, 1000⟩, demoOriginalData, []⟩ 8 none
        (AllocationAlignment.specialAligned 16)
        AllocationOrigin.kRuntime).1.fillers = [(8, 8)] := by
  have h := allocate_fast_aligned_spec ⟨⟨0, 8, 1000⟩, demoOriginalData, []⟩
    8 16 none AllocationOrigin.kRuntime 16 (by decide) (by decide)
  exact ⟨h.1, (h.2.2.2.1 (by decide)).trans (by decide)⟩

/-- C5: under its DCHECK precondition (top within the published bounds),
MoveOriginalTopForward publishes the current top as the new original_top
after acquiring the lock exclusively; hence the published original_top
equals (so never exceeds) the current top, never exceeds original_limit,
and only moves forward. Its lock/atomic trace is exactly: exclusive lock,
acquire-load of original_top, relaxed load of original_limit, release-store
of original_top, unlock. -/
theorem move_original_top_forward_spec (s : MainAllocatorState)
    (h : MoveOriginalTopForwardAssert s) :
    (MoveOriginalTopForward s).linear_area_original_data.original_top =
      s.allocation_info.top ∧
    (MoveOriginalTopForward s).linear_area_original_data.original_top ≤
      (MoveOriginalTopForward s).allocation_info.top ∧
    (MoveOriginalTopForward s).linear_area_original_data.original_top ≤
      (MoveOriginalTopForward s).linear_area_original_data.original_limit ∧
    s.linear_area_original_data.original_top ≤
      (MoveOriginalTopForward s).linear_area_original_data.original_top ∧
    (MoveOriginalTopForward s).linear_area_original_data.sync =
      s.linear_area_original_data.sync ++
        [SyncEvent.lockExclusive,
         SyncEvent.access .original_top .load .acquire,
         SyncEvent.access .original_limit .load .relaxed,
         SyncEvent.access .original_top .store .release,
         SyncEvent.unlockExclusive] := by
  obtain ⟨h1, h2⟩ := h
  simp [MoveOriginalTopForward, LinearAreaOriginalData.lockExclusiveGuard,
    LinearAreaOriginalData.get_original_top_acquire,
    LinearAreaOriginalData.get_original_limit_relaxed,
    LinearAreaOriginalData.set_original_top_release,
    LinearAreaOriginalData.unlockExclusiveGuard]
  exact ⟨h2, h1⟩

/-- Witness for C5 at a concrete input: with top 48 and published bounds
[10, 500], the call republishes original_top as 48, which stays at most 500
and at least the previous 10. -/
theorem move_original_top_forward_spec_witness :
    (MoveOriginalTopForward
        ⟨⟨0, 48, 1000⟩, ⟨10, 500, []⟩,
          []⟩).linear_area_original_data.original_top = 48 ∧
    (MoveOriginalTopForward
        ⟨⟨0, 48, 1000⟩, ⟨10, 500, []⟩,
          []⟩).linear_area_original_data.original_top ≤ 500 ∧
    (10 : Nat) ≤
      (MoveOriginalTopForward
        ⟨⟨0, 48, 1000⟩, ⟨10, 500, []⟩,
          []⟩).linear_area_original_data.original_top := by
  have h := move_original_top_forward_spec
    ⟨⟨0, 48, 1000⟩, ⟨10, 500, []⟩, []⟩ (by exact ⟨by decide, by decide⟩)
  refine ⟨h.1.trans (by decide), ?_, h.2.2.2.1⟩
  exact h.2.2.1.trans (by decide)

/-- C10: MoveOriginalTopForward modifies only the published original_top;
the published original_limit and the live allocation area (start, top,
limit) and the filler list are unchanged. -/
theorem move_original_top_forward_frame (s : MainAllocatorState) :
    (MoveOriginalTopForward s).linear_area_original_data.original_limit =
      s.linear_area_original_data.original_limit ∧
    (MoveOriginalTopForward s).allocation_info = s.allocation_info ∧
    (MoveOriginalTopForward s).fillers = s.fillers := by
  simp [MoveOriginalTopForward, LinearAreaOriginalData.lockExclusiveGuard,
    LinearAreaOriginalData.get_original_top_acquire,
    LinearAreaOriginalData.get_original_limit_relaxed,
    LinearAreaOriginalData.set_original_top_release,
    LinearAreaOriginalData.unlockExclusiveGuard]

/-- C7: every atomic access performed by the published-bounds operations
obeys the ordering contract of the source: original_top is loaded with
acquire and stored with release ordering, while original_limit is loaded
and stored with relaxed ordering; each operation appends a nonempty batch
of accesses all satisfying the contract. -/
theorem published_bounds_memory_order (d : LinearAreaOriginalData) (v : Nat)
    (s : MainAllocatorState) :
    (∃ new, (d.get_original_top_acquire).2.sync = d.sync ++ new ∧
      new.all orderingContract = true ∧ new ≠ []) ∧
    (∃ new, (d.get_original_limit_relaxed).2.sync = d.sync ++ new ∧
      new.all orderingContract = true ∧ new ≠ []) ∧
    (∃ new, (d.set_original_top_release v).sync = d.sync ++ new ∧
      new.all orderingContract = true ∧ new ≠ []) ∧
    (∃ new, (d.set_original_limit_relaxed v).sync = d.sync ++ new ∧
      new.all orderingContract = true ∧ new ≠ []) ∧
    (∃ new, (MoveOriginalTopForward s).linear_area_original_data.sync =
      s.linear_area_original_data.sync ++ new ∧
      new.all orderingContract = true ∧ new ≠ []) := by
  refine ⟨⟨[SyncEvent.access .original_top .load .acquire], rfl,
      by decide, by decide⟩,
    ⟨[SyncEvent.access .original_limit .load .relaxed], rfl,
      by decide, by decide⟩,
    ⟨[SyncEvent.access .original_top .store .release], rfl,
      by decide, by decide⟩,
    ⟨[SyncEvent.access .original_limit .store .relaxed], rfl,
      by decide, by decide⟩,
    ⟨[SyncEvent.lockExclusive,
      SyncEvent.access .original_top .load .acquire,
      SyncEvent.access .original_limit .load .relaxed,
      SyncEvent.access .original_top .store .release,
      SyncEvent.unlockExclusive], ?_, by decide, by decide⟩⟩
  simp [MoveOriginalTopForward, LinearAreaOriginalData.lockExclusiveGuard,
    LinearAreaOriginalData.get_original_top_acquire,
    LinearAreaOriginalData.get_original_limit_relaxed,
    LinearAreaOriginalData.set_original_top_release,
    LinearAreaOriginalData.unlockExclusiveGuard, List.append_assoc]

/-- Witness for C7 at a concrete input: the accesses recorded by a fresh
read-modify sequence on zeroed published bounds all satisfy the ordering
contract. -/
theorem published_bounds_memory_order_witness :
    ((demoOriginalData.get_original_top_acquire).2.sync.all
      orderingContract = true) ∧
    ((demoOriginalData.set_original_limit_relaxed 7).sync.all
      orderingContract = true) := by
  have h := published_bounds_memory_order demoOriginalData 7 demoState
  exact ⟨by decide, by decide⟩

/-! Characterization lemmas for the fast-path dispatch and the slow path. -/

lemma isFailure_iff (r : AllocationResult) :
    r.IsFailure = true ↔ r = .Failure := by
  cases r <;> simp [AllocationResult.IsFailure]

lemma fastPathAttempt_aligned (u : Bool) (s : MainAllocatorState) (n : Nat)
    (al : AllocationAlignment) (og : AllocationOrigin)
    (h : usesAlignedPath u al = true) :
    fastPathAttempt u s n al og =
      ((AllocateFastAligned s n none al og).1,
       (AllocateFastAligned s n none al og).2.1,
       [AllocEvent.fastAligned n (AllocateFastAligned s n none al og).2.1]) := by
  simp [fastPathAttempt, h]

lemma fastPathAttempt_unaligned (u : Bool) (s : MainAllocatorState) (n : Nat)
    (al : AllocationAlignment) (og : AllocationOrigin)
    (h : usesAlignedPath u al = false) :
    fastPathAttempt u s n al og =
      ((AllocateFastUnaligned s n og).1,
       (AllocateFastUnaligned s n og).2,
       [AllocEvent.fastUnaligned n (AllocateFastUnaligned s n og).2]) := by
  simp [fastPathAttempt, h]

lemma fastPathAttempt_trace_eq (u : Bool) (s : MainAllocatorState) (n : Nat)
    (al : AllocationAlignment) (og : AllocationOrigin) :
    (fastPathAttempt u s n al og).2.2 =
      [if usesAlignedPath u al = true then
        AllocEvent.fastAligned n (fastPathAttempt u s n al og).2.1
      else
        AllocEvent.fastUnaligned n (fastPathAttempt u s n al og).2.1] := by
  by_cases h : usesAlignedPath u al = true <;> simp [fastPathAttempt, h]

lemma fastPathAttempt_failure_state (u : Bool) (s : MainAllocatorState)
    (n : Nat) (al : AllocationAlignment) (og : AllocationOrigin)
    (h : (fastPathAttempt u s n al og).2.1.IsFailure = true) :
    (fastPathAttempt u s n al og).1 = s := by
  by_cases ha : usesAlignedPath u al = true
  · rw [fastPathAttempt_aligned u s n al og ha] at h ⊢
    exact (allocateFastAligned_failure_state s n none al og
      ((isFailure_iff _).mp h)).1
  · rw [fastPathAttempt_unaligned u s n al og
      (by simpa using ha)] at h ⊢
    exact allocateFastUnaligned_failure_state s n og ((isFailure_iff _).mp h)

lemma allocateRawSlow_eq_none
    (refill : MainAllocatorState → Nat → Option MainAllocatorState) (u : Bool)
    (s : MainAllocatorState) (n : Nat) (al : AllocationAlignment)
    (og : AllocationOrigin) (h : refill s n = none) :
    AllocateRawSlow refill u s n al og =
      (s, .Failure, [AllocEvent.slowCalled n, AllocEvent.refillAttempt false]) := by
  simp [AllocateRawSlow, h]

lemma allocateRawSlow_eq_some_success
    (refill : MainAllocatorState → Nat → Option MainAllocatorState) (u : Bool)
    (s s1 : MainAllocatorState) (n : Nat) (al : AllocationAlignment)
    (og : AllocationOrigin) (addr : Nat) (h : refill s n = some s1)
    (h2 : (fastPathAttempt u s1 n al og).2.1 = .Success addr) :
    AllocateRawSlow refill u s n al og =
      ((fastPathAttempt u s1 n al og).1, .Success addr,
       [AllocEvent.slowCalled n, AllocEvent.refillAttempt true]
         ++ (fastPathAttempt u s1 n al og).2.2
         ++ [AllocEvent.observersInvoked addr n n n]) := by
  simp [AllocateRawSlow, h, h2]

lemma allocateRawSlow_eq_some_failure
    (refill : MainAllocatorState → Nat → Option MainAllocatorState) (u : Bool)
    (s s1 : MainAllocatorState) (n : Nat) (al : AllocationAlignment)
    (og : AllocationOrigin) (h : refill s n = some s1)
    (h2 : (fastPathAttempt u s1 n al og).2.1 = .Failure) :
    AllocateRawSlow refill u s n al og =
      ((fastPathAttempt u s1 n al og).1, .Failure,
       [AllocEvent.slowCalled n, AllocEvent.refillAttempt true]
         ++ (fastPathAttempt u s1 n al og).2.2) := by
  simp [AllocateRawSlow, h, h2]

lemma slowCalled_mem_slow_trace
    (refill : MainAllocatorState → Nat → Option MainAllocatorState) (u : Bool)
    (s : MainAllocatorState) (n : Nat) (al : AllocationAlignment)
    (og : AllocationOrigin) :
    AllocEvent.slowCalled n ∈ (AllocateRawSlow refill u s n al og).2.2 := by
  cases h : refill s n with
  | none => simp [allocateRawSlow_eq_none refill u s n al og h]
  | some s1 =>
    cases h2 : (fastPathAttempt u s1 n al og).2.1 with
    | Success addr =>
      simp [allocateRawSlow_eq_some_success refill u s s1 n al og addr h h2]
    | Failure =>
      simp [allocateRawSlow_eq_some_failure refill u s s1 n al og h h2]

lemma allocateRaw_eq_fast_success (u : Bool)
    (refill : MainAllocatorState → Nat → Option MainAllocatorState)
    (s : MainAllocatorState) (n : Nat) (al : AllocationAlignment)
    (og : AllocationOrigin)
    (h : (fastPathAttempt u s (ALIGN_TO_ALLOCATION_ALIGNMENT n) al
      og).2.1.IsFailure = false) :
    AllocateRaw u refill s n al og =
      fastPathAttempt u s (ALIGN_TO_ALLOCATION_ALIGNMENT n) al og := by
  simp [AllocateRaw, h]

lemma allocateRaw_eq_fast_failure (u : Bool)
    (refill : MainAllocatorState → Nat → Option MainAllocatorState)
    (s : MainAllocatorState) (n : Nat) (al : AllocationAlignment)
    (og : AllocationOrigin)
    (h : (fastPathAttempt u s (ALIGN_TO_ALLOCATION_ALIGNMENT n) al
      og).2.1.IsFailure = true) :
    AllocateRaw u refill s n al og =
      ((AllocateRawSlow refill u s (ALIGN_TO_ALLOCATION_ALIGNMENT n) al
          og).1,
       (AllocateRawSlow refill u s (ALIGN_TO_ALLOCATION_ALIGNMENT n) al
          og).2.1,
       (fastPathAttempt u s (ALIGN_TO_ALLOCATION_ALIGNMENT n) al og).2.2 ++
         (AllocateRawSlow refill u s (ALIGN_TO_ALLOCATION_ALIGNMENT n) al
            og).2.2) := by
  have hst := fastPathAttempt_failure_state u s
    (ALIGN_TO_ALLOCATION_ALIGNMENT n) al og h
  simp [AllocateRaw, h, hst]

/-- C1: AllocateRaw first rounds the size to the allocation granularity;
the attempted fast path (first trace event) is the aligned one exactly when
alignment support is enabled and a non-tagged alignment is requested, and
the unaligned one otherwise, both on the rounded size; the slow path is
entered if and only if the attempted fast path returns Failure, and in that
case the slow path result is returned to the caller, the fast result
otherwise. -/
theorem allocate_raw_dispatch (u : Bool)
    (refill : MainAllocatorState → Nat → Option MainAllocatorState)
    (s : MainAllocatorState) (n : Nat) (al : AllocationAlignment)
    (og : AllocationOrigin) :
    (usesAlignedPath u al = true →
      (AllocateRaw u refill s n al og).2.2.head? =
        some (AllocEvent.fastAligned (ALIGN_TO_ALLOCATION_ALIGNMENT n)
          (AllocateFastAligned s (ALIGN_TO_ALLOCATION_ALIGNMENT n) none al
            og).2.1)) ∧
    (usesAlignedPath u al = false →
      (AllocateRaw u refill s n al og).2.2.head? =
        some (AllocEvent.fastUnaligned (ALIGN_TO_ALLOCATION_ALIGNMENT n)
          (AllocateFastUnaligned s (ALIGN_TO_ALLOCATION_ALIGNMENT n)
            og).2)) ∧
    (AllocEvent.slowCalled (ALIGN_TO_ALLOCATION_ALIGNMENT n) ∈
        (AllocateRaw u refill s n al og).2.2 ↔
      (fastPathAttempt u s (ALIGN_TO_ALLOCATION_ALIGNMENT n) al
        og).2.1.IsFailure = true) ∧
    ((fastPathAttempt u s (ALIGN_TO_ALLOCATION_ALIGNMENT n) al
        og).2.1.IsFailure = true →
      (AllocateRaw u refill s n al og).2.1 =
        (AllocateRawSlow refill u s (ALIGN_TO_ALLOCATION_ALIGNMENT n) al
          og).2.1) ∧
    ((fastPathAttempt u s (ALIGN_TO_ALLOCATION_ALIGNMENT n) al
        og).2.1.IsFailure = false →
      (AllocateRaw u refill s n al og).2.1 =
        (fastPathAttempt u s (ALIGN_TO_ALLOCATION_ALIGNMENT n) al
          og).2.1) := by
  by_cases hf : (fastPathAttempt u s (ALIGN_TO_ALLOCATION_ALIGNMENT n) al
      og).2.1.IsFailure = true
  · rw [allocateRaw_eq_fast_failure u refill s n al og hf]
    refine ⟨?_, ?_, ?_, fun _ => rfl, fun hc => by simp [hf] at hc⟩
    · intro ha
      rw [fastPathAttempt_trace_eq, if_pos ha,
        fastPathAttempt_aligned u s (ALIGN_TO_ALLOCATION_ALIGNMENT n) al og
          ha]
      simp
    · intro ha
      rw [fastPathAttempt_trace_eq, if_neg (by simp [ha]),
        fastPathAttempt_unaligned u s (ALIGN_TO_ALLOCATION_ALIGNMENT n) al og
          ha]
      simp
    · simp only [List.mem_append]
      constructor
      · intro _; exact hf
      · intro _
        exact Or.inr (slowCalled_mem_slow_trace refill u s
          (ALIGN_TO_ALLOCATION_ALIGNMENT n) al og)
  · have hf' : (fastPathAttempt u s (ALIGN_TO_ALLOCATION_ALIGNMENT n) al
        og).2.1.IsFailure = false := by simpa using hf
    rw [allocateRaw_eq_fast_success u refill s n al og hf']
    refine ⟨?_, ?_, ?_, fun hc => by simp [hc] at hf', fun _ => rfl⟩
    · intro ha
      rw [fastPathAttempt_trace_eq, if_pos ha,
        fastPathAttempt_aligned u s (ALIGN_TO_ALLOCATION_ALIGNMENT n) al og
          ha]
      simp
    · intro ha
      rw [fastPathAttempt_trace_eq, if_neg (by simp [ha]),
        fastPathAttempt_unaligned u s (ALIGN_TO_ALLOCATION_ALIGNMENT n) al og
          ha]
      simp
    · rw [fastPathAttempt_trace_eq]
      by_cases ha : usesAlignedPath u al = true <;>
        simp [ha, hf']

/-- Witness for C1 at a concrete input: a 24-byte tagged-aligned request in
a fresh area takes the unaligned fast path (first trace event), succeeds at
address 0, and never enters the slow path. -/
theorem allocate_raw_dispatch_witness :
    (AllocateRaw false refillFail demoState 24
        AllocationAlignment.kTaggedAligned AllocationOrigin.kRuntime).2.2.head? =
      some (AllocEvent.fastUnaligned 24 (AllocationResult.Success 0)) ∧
    (AllocateRaw false refillFail demoState 24
        AllocationAlignment.kTaggedAligned AllocationOrigin.kRuntime).2.1 =
      AllocationResult.Success 0 := by
  have h := allocate_raw_dispatch false refillFail demoState 24
    AllocationAlignment.kTaggedAligned AllocationOrigin.kRuntime
  exact ⟨h.2.1 (by decide), h.2.2.2.2 (by decide)⟩

lemma fastPathAttempt_trace_countFast (u : Bool) (s : MainAllocatorState)
    (n : Nat) (al : AllocationAlignment) (og : AllocationOrigin) :
    ((fastPathAttempt u s n al og).2.2).countP isFastAttemptEvent = 1 := by
  rw [fastPathAttempt_trace_eq]
  by_cases h : usesAlignedPath u al = true <;>
    simp [h, isFastAttemptEvent, List.countP_cons]

/-- C8: the slow path performs no internal retry loop: when the space/heap
collaborator cannot refill, it returns a terminal Failure with no fast-path
retry and the state unchanged; when the collaborator refills, it retries the
fast path exactly once against the refreshed state and returns that
attempt's result, a still-failing retry surfacing Failure to the caller.
Moreover the slow path is entered by AllocateRaw only after the fast path
fails. -/
theorem allocate_raw_slow_spec
    (refill : MainAllocatorState → Nat → Option MainAllocatorState) (u : Bool)
    (s : MainAllocatorState) (n : Nat) (al : AllocationAlignment)
    (og : AllocationOrigin) :
    ((AllocateRawSlow refill u s n al og).2.2.countP isFastAttemptEvent ≤ 1) ∧
    (refill s n = none →
      (AllocateRawSlow refill u s n al og).2.1 = .Failure ∧
      (AllocateRawSlow refill u s n al og).1 = s ∧
      (AllocateRawSlow refill u s n al og).2.2.countP isFastAttemptEvent =
        0) ∧
    (∀ s1, refill s n = some s1 →
      (AllocateRawSlow refill u s n al og).2.2.countP isFastAttemptEvent =
        1 ∧
      (AllocateRawSlow refill u s n al og).2.1 =
        (fastPathAttempt u s1 n al og).2.1 ∧
      ((fastPathAttempt u s1 n al og).2.1 = .Failure →
        (AllocateRawSlow refill u s n al og).2.1 = .Failure)) ∧
    (AllocEvent.slowCalled (ALIGN_TO_ALLOCATION_ALIGNMENT n) ∈
        (AllocateRaw u refill s n al og).2.2 →
      (fastPathAttempt u s (ALIGN_TO_ALLOCATION_ALIGNMENT n) al
        og).2.1.IsFailure = true) := by
  have hmain : ((AllocateRawSlow refill u s n al og).2.2.countP
        isFastAttemptEvent ≤ 1) ∧
      (refill s n = none →
        (AllocateRawSlow refill u s n al og).2.1 = .Failure ∧
        (AllocateRawSlow refill u s n al og).1 = s ∧
        (AllocateRawSlow refill u s n al og).2.2.countP isFastAttemptEvent =
          0) ∧
      (∀ s1, refill s n = some s1 →
        (AllocateRawSlow refill u s n al og).2.2.countP isFastAttemptEvent =
          1 ∧
        (AllocateRawSlow refill u s n al og).2.1 =
          (fastPathAttempt u s1 n al og).2.1 ∧
        ((fastPathAttempt u s1 n al og).2.1 = .Failure →
          (AllocateRawSlow refill u s n al og).2.1 = .Failure)) := by
    cases h : refill s n with
    | none =>
      rw [allocateRawSlow_eq_none refill u s n al og h]
      refine ⟨by simp [isFastAttemptEvent, List.countP_cons],
        fun _ => ⟨rfl, rfl, by simp [isFastAttemptEvent, List.countP_cons]⟩,
        fun s1 hs1 => by simp at hs1⟩
    | some s1 =>
      have hcount := fastPathAttempt_trace_countFast u s1 n al og
      cases h2 : (fastPathAttempt u s1 n al og).2.1 with
      | Success addr =>
        rw [allocateRawSlow_eq_some_success refill u s s1 n al og addr h h2]
        refine ⟨?_, fun hn => by simp at hn, fun s1' hs1' => ?_⟩
        · simp [List.countP_append, isFastAttemptEvent, List.countP_cons,
            hcount]
        · obtain rfl : s1' = s1 := by
            injection hs1' with h3
            exact h3.symm
          refine ⟨?_, by rw [h2],
            fun hfail => by rw [h2] at hfail; cases hfail⟩
          simp [List.countP_append, isFastAttemptEvent, List.countP_cons,
            hcount]
      | Failure =>
        rw [allocateRawSlow_eq_some_failure refill u s s1 n al og h h2]
        refine ⟨?_, fun hn => by simp at hn, fun s1' hs1' => ?_⟩
        · simp [List.countP_append, isFastAttemptEvent, List.countP_cons,
            hcount]
        · obtain rfl : s1' = s1 := by
            injection hs1' with h3
            exact h3.symm
          refine ⟨?_, by rw [h2], fun _ => rfl⟩
          simp [List.countP_append, isFastAttemptEvent, List.countP_cons,
            hcount]
  refine ⟨hmain.1, hmain.2.1, hmain.2.2, ?_⟩
  by_cases hf : (fastPathAttempt u s (ALIGN_TO_ALLOCATION_ALIGNMENT n) al
      og).2.1.IsFailure = true
  · exact fun _ => hf
  · have hf' : (fastPathAttempt u s (ALIGN_TO_ALLOCATION_ALIGNMENT n) al
        og).2.1.IsFailure = false := by simpa using hf
    rw [allocateRaw_eq_fast_success u refill s n al og hf',
      fastPathAttempt_trace_eq]
    by_cases ha : usesAlignedPath u al = true <;> simp [ha]

/-- Witness for C8 at concrete inputs: in the nearly full area, a failed
refill surfaces Failure, while a fresh-page refill lets the single retry
succeed at address 2000 with exactly one fast attempt recorded. -/
theorem allocate_raw_slow_spec_witness :
    (AllocateRawSlow refillFail false demoFullState 24
        AllocationAlignment.kTaggedAligned AllocationOrigin.kRuntime).2.1 =
      AllocationResult.Failure ∧
    (AllocateRawSlow refillFresh false demoFullState 24
        AllocationAlignment.kTaggedAligned AllocationOrigin.kRuntime).2.1 =
      AllocationResult.Success 2000 ∧
    (AllocateRawSlow refillFresh false demoFullState 24
        AllocationAlignment.kTaggedAligned
        AllocationOrigin.kRuntime).2.2.countP isFastAttemptEvent = 1 := by
  have h1 := allocate_raw_slow_spec refillFail false demoFullState 24
    AllocationAlignment.kTaggedAligned AllocationOrigin.kRuntime
  have h2 := allocate_raw_slow_spec refillFresh false demoFullState 24
    AllocationAlignment.kTaggedAligned AllocationOrigin.kRuntime
  refine ⟨(h1.2.1 rfl).1, ?_, (h2.2.2.1 demoFreshState rfl).1⟩
  exact ((h2.2.2.1 demoFreshState rfl).2.1).trans (by decide)

/-- Counterexample to C6 as stated: a successful fast-path allocation (24
bytes in a fresh area, succeeding at address 0) performs zero observer
invocations, not exactly one; the fast paths of main-allocator-inl.h contain
no call to InvokeAllocationObservers. -/
theorem observer_invocation_counterexample :
    (AllocateRaw false refillFail demoState 24
        AllocationAlignment.kTaggedAligned AllocationOrigin.kRuntime).2.1 =
      AllocationResult.Success 0 ∧
    (AllocateRaw false refillFail demoState 24
        AllocationAlignment.kTaggedAligned
        AllocationOrigin.kRuntime).2.2.countP isObserverEvent = 0 := by
  decide

/-- C6 amended: the observer invocation never happens on the fast path; it
happens exactly once per allocation that succeeds through the slow path, and
then only as the final step, after the fast-path retry has already advanced
the region bounds (every observer event is the last trace event). -/
theorem observer_invocation_amended (u : Bool)
    (refill : MainAllocatorState → Nat → Option MainAllocatorState)
    (s : MainAllocatorState) (n : Nat) (al : AllocationAlignment)
    (og : AllocationOrigin) :
    ((AllocateRaw u refill s n al og).2.2.countP isObserverEvent =
      if (AllocateRaw u refill s n al og).2.1.IsFailure = false ∧
          (AllocateRaw u refill s n al og).2.2.countP isSlowEvent ≠ 0
        then 1 else 0) ∧
    (AllocateRaw u refill s n al og).2.2.dropLast.countP isObserverEvent
      = 0 := by
  by_cases hf : (fastPathAttempt u s (ALIGN_TO_ALLOCATION_ALIGNMENT n) al
      og).2.1.IsFailure = true
  · rw [allocateRaw_eq_fast_failure u refill s n al og hf]
    cases h : refill s (ALIGN_TO_ALLOCATION_ALIGNMENT n) with
    | none =>
      rw [allocateRawSlow_eq_none refill u s _ al og h,
        fastPathAttempt_trace_eq]
      by_cases ha : usesAlignedPath u al = true <;>
        simp [ha, isObserverEvent, isSlowEvent, AllocationResult.IsFailure,
          List.countP_cons, List.dropLast]
    | some s1 =>
      cases h2 : (fastPathAttempt u s1 (ALIGN_TO_ALLOCATION_ALIGNMENT n) al
          og).2.1 with
      | Success addr =>
        rw [allocateRawSlow_eq_some_success refill u s s1 _ al og addr h h2,
          fastPathAttempt_trace_eq u s, fastPathAttempt_trace_eq u s1]
        by_cases ha : usesAlignedPath u al = true <;>
          simp [ha, isObserverEvent, isSlowEvent, AllocationResult.IsFailure,
            List.countP_cons, List.dropLast]
      | Failure =>
        rw [allocateRawSlow_eq_some_failure refill u s s1 _ al og h h2,
          fastPathAttempt_trace_eq u s, fastPathAttempt_trace_eq u s1]
        by_cases ha : usesAlignedPath u al = true <;>
          simp [ha, isObserverEvent, isSlowEvent, AllocationResult.IsFailure,
            List.countP_cons, List.dropLast]
  · have hf' : (fastPathAttempt u s (ALIGN_TO_ALLOCATION_ALIGNMENT n) al
        og).2.1.IsFailure = false := by simpa using hf
    rw [allocateRaw_eq_fast_success u refill s n al og hf',
      fastPathAttempt_trace_eq]
    by_cases ha : usesAlignedPath u al = true <;>
      simp [ha, isObserverEvent, isSlowEvent, List.countP_cons,
        List.dropLast]

/-- Witness for C6 amended at a concrete input: an allocation that succeeds
through the slow path (nearly full area, fresh-page refill) records exactly
one observer invocation. -/
theorem observer_invocation_amended_witness :
    (AllocateRaw false refillFresh demoFullState 24
        AllocationAlignment.kTaggedAligned
        AllocationOrigin.kRuntime).2.2.countP isObserverEvent = 1 := by
  have h := observer_invocation_amended false refillFresh demoFullState 24
    AllocationAlignment.kTaggedAligned AllocationOrigin.kRuntime
  exact h.1.trans (by decide)

/-! Lemmas for allocation sequences. -/

lemma allocateFastUnaligned_top_mono (s : MainAllocatorState) (n : Nat)
    (og : AllocationOrigin) :
    s.allocation_info.top ≤
      (AllocateFastUnaligned s n og).1.allocation_info.top := by
  unfold AllocateFastUnaligned
  by_cases hc : s.allocation_info.CanIncrementTop
      (ALIGN_TO_ALLOCATION_ALIGNMENT n) = true <;>
    simp [hc, LinearAllocationArea.IncrementTop]

lemma allocateFastAligned_top_mono (s : MainAllocatorState) (n : Nat)
    (al : AllocationAlignment) (og : AllocationOrigin) :
    s.allocation_info.top ≤
      (AllocateFastAligned s n none al og).1.allocation_info.top := by
  unfold AllocateFastAligned
  by_cases hc : s.allocation_info.CanIncrementTop
      (n + GetFillToAlign s.allocation_info.top al) = true
  · by_cases hfp : GetFillToAlign s.allocation_info.top al > 0 <;>
      simp [hc, hfp, LinearAllocationArea.IncrementTop, PrecedeWithFiller]
  · simp [hc]

lemma allocateFastUnaligned_success_addr (s : MainAllocatorState) (n : Nat)
    (og : AllocationOrigin) (addr : Nat)
    (h : (AllocateFastUnaligned s n og).2 = .Success addr) :
    addr = s.allocation_info.top ∧
    (AllocateFastUnaligned s n og).1.allocation_info.top =
      addr + ALIGN_TO_ALLOCATION_ALIGNMENT n := by
  unfold AllocateFastUnaligned at *
  by_cases hc : s.allocation_info.CanIncrementTop
      (ALIGN_TO_ALLOCATION_ALIGNMENT n) = true
  · simp [hc, LinearAllocationArea.IncrementTop] at h ⊢
    omega
  · simp [hc] at h

lemma allocateFastAligned_success_addr (s : MainAllocatorState) (n : Nat)
    (al : AllocationAlignment) (og : AllocationOrigin) (addr : Nat)
    (h : (AllocateFastAligned s n none al og).2.1 = .Success addr) :
    s.allocation_info.top ≤ addr ∧
    (AllocateFastAligned s n none al og).1.allocation_info.top =
      addr + n := by
  unfold AllocateFastAligned at *
  by_cases hc : s.allocation_info.CanIncrementTop
      (n + GetFillToAlign s.allocation_info.top al) = true
  · by_cases hfp : GetFillToAlign s.allocation_info.top al > 0
    · simp [hc, hfp, LinearAllocationArea.IncrementTop, PrecedeWithFiller]
        at h ⊢
      omega
    · simp [hc, hfp, LinearAllocationArea.IncrementTop, PrecedeWithFiller]
        at h ⊢
      omega
  · simp [hc] at h

lemma allocStep_top_mono (s : MainAllocatorState) (og : AllocationOrigin)
    (req : AllocRequest) :
    s.allocation_info.top ≤ (allocStep s og req).1.allocation_info.top := by
  cases req with
  | unalignedReq size =>
    cases hres : (AllocateFastUnaligned s size og).2 with
    | Success addr =>
      simpa [allocStep, hres] using allocateFastUnaligned_top_mono s size og
    | Failure =>
      simpa [allocStep, hres] using allocateFastUnaligned_top_mono s size og
  | alignedReq size a =>
    cases hres : (AllocateFastAligned s size none (.specialAligned a)
        og).2.1 with
    | Success addr =>
      simpa [allocStep, hres] using
        allocateFastAligned_top_mono s size (.specialAligned a) og
    | Failure =>
      simpa [allocStep, hres] using
        allocateFastAligned_top_mono s size (.specialAligned a) og

lemma allocStep_success (s : MainAllocatorState) (og : AllocationOrigin)
    (req : AllocRequest) (x : Nat × Nat × Nat)
    (h : (allocStep s og req).2 = some x) :
    s.allocation_info.top ≤ x.1 ∧
    x.1 + x.2.1 = (allocStep s og req).1.allocation_info.top := by
  cases req with
  | unalignedReq size =>
    cases hres : (AllocateFastUnaligned s size og).2 with
    | Failure => simp [allocStep, hres] at h
    | Success addr =>
      simp [allocStep, hres] at h ⊢
      obtain rfl := h.symm
      have hs := allocateFastUnaligned_success_addr s size og addr hres
      exact ⟨le_of_eq hs.1.symm, hs.2.symm⟩
  | alignedReq size a =>
    cases hres : (AllocateFastAligned s size none (.specialAligned a)
        og).2.1 with
    | Failure => simp [allocStep, hres] at h
    | Success addr =>
      simp [allocStep, hres] at h ⊢
      obtain rfl := h.symm
      have hs := allocateFastAligned_success_addr s size
        (.specialAligned a) og addr hres
      exact ⟨hs.1, hs.2.symm⟩

lemma runAllocs_head_ge (og : AllocationOrigin) (reqs : List AllocRequest) :
    ∀ (s : MainAllocatorState) (x : Nat × Nat × Nat),
      (runAllocs og s reqs).2.head? = some x →
        s.allocation_info.top ≤ x.1 := by
  induction reqs with
  | nil => intro s x h; simp [runAllocs] at h
  | cons req rest ih =>
    intro s x h
    rcases hstep : (allocStep s og req).2 with _ | e
    · rw [runAllocs] at h
      simp [hstep] at h
      exact le_trans (allocStep_top_mono s og req) (ih _ x h)
    · rw [runAllocs] at h
      simp [hstep] at h
      obtain rfl := h.symm
      exact (allocStep_success s og req x hstep).1

/-- Counterexample to C4 as stated: running unaligned 8, then 8 aligned to
16, then unaligned 8 from a fresh area yields successful allocations
(0, size 8, aligned size 8), (16, 8, 16), (24, 8, 8); for the consecutive
pair i = 2, i+1 = 3 we get addr(i) + aligned_size(i) = 16 + 16 = 32 > 24 =
addr(i+1), because the 8-byte alignment filler precedes the object at 16
rather than following it. -/
theorem alloc_monotonic_counterexample :
    (runAllocs AllocationOrigin.kRuntime demoState overlapRequests).2 =
      [(0, 8, 8), (16, 8, 16), (24, 8, 8)] ∧
    ¬ (((runAllocs AllocationOrigin.kRuntime demoState
            overlapRequests).2.getD 1 (0, 0, 0)).1 +
        ((runAllocs AllocationOrigin.kRuntime demoState
            overlapRequests).2.getD 1 (0, 0, 0)).2.2 ≤
        ((runAllocs AllocationOrigin.kRuntime demoState
            overlapRequests).2.getD 2 (0, 0, 0)).1) := by
  decide

/-- C4 amended: for any sequence of fast-path allocations, consecutive
successful allocations i, i+1 satisfy addr(i) + size(i) ≤ addr(i+1), where
size(i) is the object size excluding the alignment filler (the filler
precedes the object); addresses are strictly increasing whenever the object
size is positive. -/
theorem alloc_monotonic_amended (og : AllocationOrigin)
    (reqs : List AllocRequest) :
    ∀ s : MainAllocatorState,
      List.Chain' MonotoneStep (runAllocs og s reqs).2 := by
  induction reqs with
  | nil => intro s; simp [runAllocs]
  | cons req rest ih =>
    intro s
    rcases hstep : (allocStep s og req).2 with _ | e
    · rw [runAllocs]
      simpa [hstep] using ih (allocStep s og req).1
    · rw [runAllocs]
      simp only [hstep, Option.toList_some, List.singleton_append]
      rw [List.chain'_cons']
      refine ⟨?_, ih _⟩
      intro y hy
      have h1 := allocStep_success s og req e hstep
      have h2 := runAllocs_head_ge og rest (allocStep s og req).1 y
        (Option.mem_def.mp hy)
      exact ⟨by omega, fun hpos => by omega⟩

/-- Witness for C4 amended at a concrete input: the same three-request
sequence satisfies the corrected non-overlap chain. -/
theorem alloc_monotonic_amended_witness :
    List.Chain' MonotoneStep
      (runAllocs AllocationOrigin.kRuntime demoState overlapRequests).2 :=
  alloc_monotonic_amended AllocationOrigin.kRuntime overlapRequests demoState

end V8Heap
